import Mathlib

/-!
Verification development for the Titan SDK v1 client
(`src/client.ts`, `src/codec.ts`, `src/types/v1.ts`).

The client is a single-threaded protocol engine: every handler runs to
completion before the next event is processed, so each TypeScript method or
event handler is embedded as a pure function from the client state (and the
event) to the new state together with the list of observable effects it
performs (settling waiters, signalling stream sequences, socket sends and
closes, diagnostics).  Domain payloads (server info, quotes, venues, ...) are
opaque to the engine and are modelled as uninterpreted tokens.  JavaScript
`Map`s are modelled as association lists with `Map.get` / `Map.set` /
`Map.delete` semantics.  Strings handed to the codec's protocol negotiation
are modelled as their character sequences (`List Char`).
-/

namespace Titan

/-! ## Opaque domain payloads (carried, never inspected, by the engine) -/

/-- `v1.ServerInfo`: opaque payload of a `GetInfo` response. -/
structure ServerInfo where
  token : Nat
deriving DecidableEq, Repr

/-- `v1.QuoteSwapStreamResponse`: opaque payload of a `NewSwapQuoteStream` response. -/
structure QuoteSwapStreamResponse where
  token : Nat
deriving DecidableEq, Repr

/-- `v1.StopStreamResponse { id }`. -/
structure StopStreamResponse where
  id : Nat
deriving DecidableEq, Repr

/-- `v1.VenueInfo`: opaque payload of a `GetVenues` response. -/
structure VenueInfo where
  token : Nat
deriving DecidableEq, Repr

/-- `v1.ProviderInfo`: opaque element of a `ListProviders` response. -/
structure ProviderInfo where
  token : Nat
deriving DecidableEq, Repr

/-- `v1.SwapQuotes`: opaque payload of a stream data item. -/
structure SwapQuotes where
  token : Nat
deriving DecidableEq, Repr

/-- `v1.SwapQuoteRequest`: opaque parameters of `newSwapQuoteStream`. -/
structure SwapQuoteRequest where
  token : Nat
deriving DecidableEq, Repr

/-- `v1.GetVenuesRequest { includeProgramIds? }`. -/
structure GetVenuesRequest where
  includeProgramIds : Option Bool
deriving DecidableEq, Repr

/-- `v1.ListProvidersRequest { includeIcons? }`. -/
structure ListProvidersRequest where
  includeIcons : Option Bool
deriving DecidableEq, Repr

/-- `v1.StopStreamRequest { id }`. -/
structure StopStreamRequest where
  id : Nat
deriving DecidableEq, Repr

/-! ## Wire envelopes (`src/types/v1.ts`) -/

/-- `v1.RequestData`: externally tagged union of client request payloads. -/
inductive RequestData where
  | getInfo
  | newSwapQuoteStream (params : SwapQuoteRequest)
  | stopStream (req : StopStreamRequest)
  | getVenues (params : GetVenuesRequest)
  | listProviders (params : ListProvidersRequest)
deriving DecidableEq, Repr

/-- `v1.ClientRequest { id, data }`. -/
structure ClientRequest where
  id : Nat
  data : RequestData
deriving DecidableEq, Repr

/-- `v1.StreamDataType`. -/
inductive StreamDataType where
  | swapQuotes
deriving DecidableEq, Repr

/-- `v1.StreamStart { id, dataType }`. -/
structure StreamStart where
  id : Nat
  dataType : StreamDataType
deriving DecidableEq, Repr

/-- `v1.ResponseData`: externally tagged union of success-response payloads.
The `unknownTag` constructor stands for a well-formed response object whose
single key is none of the recognised tags (the code's final `else` branch). -/
inductive ResponseData where
  | getInfo (info : ServerInfo)
  | newSwapQuoteStream (resp : QuoteSwapStreamResponse)
  | getVenues (venues : VenueInfo)
  | listProviders (providers : List ProviderInfo)
  | streamStopped (resp : StopStreamResponse)
  | unknownTag (tag : String)
deriving DecidableEq, Repr

/-- `v1.ResponseSuccess { requestId, data, stream? }`. -/
structure ResponseSuccess where
  requestId : Nat
  data : ResponseData
  stream : Option StreamStart
deriving DecidableEq, Repr

/-- `v1.ResponseError { requestId, code, message }`. -/
structure ResponseError where
  requestId : Nat
  code : Nat
  message : String
deriving DecidableEq, Repr

/-- `v1.StreamDataPayload`: at runtime the client only checks whether the
`SwapQuotes` key is present (`packet.payload.SwapQuotes !== undefined`). -/
structure StreamDataPayload where
  swapQuotes : Option SwapQuotes
deriving DecidableEq, Repr

/-- `v1.StreamData { id, seq, payload }`. -/
structure StreamData where
  id : Nat
  seq : Nat
  payload : StreamDataPayload
deriving DecidableEq, Repr

/-- `v1.StreamEnd { id, errorCode?, errorMessage? }`. -/
structure StreamEnd where
  id : Nat
  errorCode : Option Nat
  errorMessage : Option String
deriving DecidableEq, Repr

/-- `v1.ServerMessage`: externally tagged union of inbound envelopes. -/
inductive ServerMessage where
  | response (r : ResponseSuccess)
  | error (e : ResponseError)
  | streamData (d : StreamData)
  | streamEnd (e : StreamEnd)
deriving DecidableEq, Repr

/-! ## Errors (`src/client.ts`, `src/codec.ts`) -/

/-- WebSocket close event (`ICloseEvent`). -/
structure CloseEvent where
  code : Nat
  reason : String
  wasClean : Bool
deriving DecidableEq, Repr

/-- `DecodeError`: failure produced by `V1ClientCodec.decode`. -/
structure DecodeFailure where
  reason : String
deriving DecidableEq, Repr

/-- The underlying cause wrapped by a `ConnectionError`: either a decode
failure surfaced by `handleMessage`, or a socket `onerror` event (opaque). -/
inductive ErrorCause where
  | decode (failure : DecodeFailure)
  | socket (token : Nat)
deriving DecidableEq, Repr

/-- `StreamError` fields as computed by its constructor from a `StreamEnd`
packet (`errorCode ? errorCode : 0`, `errorMessage ? errorMessage : ""`). -/
structure StreamErrorData where
  streamId : Nat
  errorCode : Nat
  errorMessage : String
deriving DecidableEq, Repr

/-- JavaScript truthiness of `Option Nat` - `x ? x : 0`. -/
def truthyNum : Option Nat → Nat
  | none => 0
  | some n => if n = 0 then 0 else n

/-- JavaScript truthiness of `Option String` - `x ? x : ""`. -/
def truthyStr : Option String → String
  | none => ""
  | some s => if s = "" then "" else s

/-- The `StreamError` constructor applied to a `StreamEnd` packet. -/
def StreamErrorData.ofPacket (packet : StreamEnd) : StreamErrorData :=
  { streamId := packet.id
    errorCode := truthyNum packet.errorCode
    errorMessage := truthyStr packet.errorMessage }

/-- The error values with which the client settles waiters and streams. -/
inductive ClientError where
  | connectionClosed (event : CloseEvent)
  | connectionError (cause : ErrorCause)
  | errorResponse (response : ResponseError)
  | streamError (data : StreamErrorData)
  | protocolError (reason : String)
deriving DecidableEq, Repr

/-! ## JavaScript `Map` as an association list -/

/-- `Map.get`. -/
def mapLookup {α : Type} (k : Nat) : List (Nat × α) → Option α
  | [] => none
  | (k', v) :: rest => if k' = k then some v else mapLookup k rest

/-- `Map.delete`. -/
def mapErase {α : Type} (k : Nat) : List (Nat × α) → List (Nat × α)
  | [] => []
  | (k', v) :: rest =>
    if k' = k then mapErase k rest else (k', v) :: mapErase k rest

/-- `Map.set` (the key holds exactly the new value afterwards). -/
def mapSet {α : Type} (k : Nat) (v : α) (m : List (Nat × α)) : List (Nat × α) :=
  mapErase k m ++ [(k, v)]

/-- `Map.has`. -/
def mapHas {α : Type} (k : Nat) (m : List (Nat × α)) : Bool :=
  (mapLookup k m).isSome

theorem mapLookup_mapErase {α : Type} (k j : Nat) (m : List (Nat × α)) :
    mapLookup j (mapErase k m) = if j = k then none else mapLookup j m := by
  induction m with
  | nil => simp [mapErase, mapLookup]
  | cons p rest ih =>
    obtain ⟨k', v⟩ := p
    by_cases hk : k' = k
    · subst hk
      rw [show mapErase k' ((k', v) :: rest) = mapErase k' rest by simp [mapErase]]
      rw [ih]
      by_cases hj : j = k'
      · simp [hj]
      · have hj' : ¬(k' = j) := fun h => hj h.symm
        simp [mapLookup, hj, hj']
    · rw [show mapErase k ((k', v) :: rest) = (k', v) :: mapErase k rest by
        simp [mapErase, hk]]
      by_cases hj : k' = j
      · subst hj
        have hjk : ¬(k' = k) := hk
        simp [mapLookup, hjk]
      · simp only [mapLookup, if_neg hj]
        rw [ih]

theorem mapLookup_append_none {α : Type} (j : Nat) (l₁ l₂ : List (Nat × α))
    (h : mapLookup j l₁ = none) : mapLookup j (l₁ ++ l₂) = mapLookup j l₂ := by
  induction l₁ with
  | nil => simp
  | cons p rest ih =>
    obtain ⟨k', v⟩ := p
    by_cases hj : k' = j
    · simp [mapLookup, hj] at h
    · simp only [mapLookup, if_neg hj, List.cons_append] at h ⊢
      exact ih h

theorem mapLookup_append_some {α : Type} (j : Nat) (l₁ l₂ : List (Nat × α))
    {v : α} (h : mapLookup j l₁ = some v) : mapLookup j (l₁ ++ l₂) = some v := by
  induction l₁ with
  | nil => simp [mapLookup] at h
  | cons p rest ih =>
    obtain ⟨k', v'⟩ := p
    by_cases hj : k' = j
    · simp only [mapLookup, if_pos hj, List.cons_append] at h ⊢
      exact h
    · simp only [mapLookup, if_neg hj, List.cons_append] at h ⊢
      exact ih h

theorem mapLookup_mapSet_self {α : Type} (k : Nat) (v : α) (m : List (Nat × α)) :
    mapLookup k (mapSet k v m) = some v := by
  unfold mapSet
  rw [mapLookup_append_none k _ _ (by simp [mapLookup_mapErase])]
  simp [mapLookup]

theorem mapLookup_mapSet_ne {α : Type} (k j : Nat) (v : α) (m : List (Nat × α))
    (h : j ≠ k) : mapLookup j (mapSet k v m) = mapLookup j m := by
  unfold mapSet
  cases he : mapLookup j (mapErase k m) with
  | none =>
    rw [mapLookup_append_none j _ _ he]
    rw [mapLookup_mapErase, if_neg h] at he
    have hkj : ¬(k = j) := fun hkj => h hkj.symm
    simp [mapLookup, hkj, he.symm]
  | some x =>
    rw [mapLookup_append_some j _ _ he]
    rw [mapLookup_mapErase, if_neg h] at he
    exact he.symm

theorem mapLookup_isSome_exists {α : Type} (k : Nat) (m : List (Nat × α))
    (h : (mapLookup k m).isSome) : ∃ v, (k, v) ∈ m := by
  induction m with
  | nil => simp [mapLookup] at h
  | cons p rest ih =>
    obtain ⟨k', v'⟩ := p
    by_cases hk : k' = k
    · subst hk
      exact ⟨v', List.mem_cons_self _ _⟩
    · simp [mapLookup, hk] at h
      obtain ⟨v, hv⟩ := ih h
      exact ⟨v, List.mem_cons_of_mem _ hv⟩

/-! ## Envelope codec (`src/codec.ts`) -/

/-- A value produced by the MessagePack decoder: `null`, a scalar, binary
data, an array, or a keyed object. -/
inductive MsgValue where
  | nullValue
  | boolValue (b : Bool)
  | numValue (n : Int)
  | bigintValue (n : Int)
  | strValue (s : String)
  | binValue (bytes : List Nat)
  | arrValue (elems : List MsgValue)
  | objValue (fields : List (String × MsgValue))

/-- JavaScript `typeof` on a decoded MessagePack value. -/
def jsTypeof : MsgValue → String
  | .nullValue => "object"
  | .boolValue _ => "boolean"
  | .numValue _ => "number"
  | .bigintValue _ => "bigint"
  | .strValue _ => "string"
  | .binValue _ => "object"
  | .arrValue _ => "object"
  | .objValue _ => "object"

/-- `Array.isArray` on a decoded MessagePack value. -/
def jsIsArray : MsgValue → Bool
  | .arrValue _ => true
  | _ => false

/-- `decoded === null`. -/
def jsIsNull : MsgValue → Bool
  | .nullValue => true
  | _ => false

/-- The validation stage of `V1ClientCodec.decode`, applied to the value the
MessagePack decoder produced from the decompressed bytes.  Mirrors the three
guarded throws followed by the cast. -/
def decodeValidate (decoded : MsgValue) : Except DecodeFailure MsgValue :=
  if jsIsNull decoded then
    .error ⟨"decoded value was null"⟩
  else if jsTypeof decoded ≠ "object" then
    .error ⟨"value decoded to " ++ jsTypeof decoded ++ ", expected object"⟩
  else if jsIsArray decoded then
    .error ⟨"got array, expected object"⟩
  else
    .ok decoded

/-- `WEBSOCKET_SUBPROTO_BASE`, as a character sequence. -/
def WEBSOCKET_SUBPROTO_BASE : List Char := "v1.api.titan.ag".data

/-- The compression strategy selected by `V1ClientCodec.from_protocol`. -/
inductive CompressionScheme where
  | nullCompressor
  | zstdCompressor
  | brotliCompressor
  | gzipCompressor
deriving DecidableEq, Repr

/-- `InvalidProtocolError`. -/
structure InvalidProtocolFailure where
  protocol : List Char
  reason : String
deriving DecidableEq, Repr

/-- `V1ClientCodec.from_protocol`: subprotocol negotiation.  JavaScript
`protocol.startsWith(base)` is `isPrefixOf`, `protocol.substring(base.length)`
is `drop`. -/
def from_protocol (protocol : List Char) :
    Except InvalidProtocolFailure CompressionScheme :=
  if WEBSOCKET_SUBPROTO_BASE.isPrefixOf protocol then
    let encoding := protocol.drop WEBSOCKET_SUBPROTO_BASE.length
    if encoding = [] then .ok .nullCompressor
    else if encoding = "+zstd".data then .ok .zstdCompressor
    else if encoding = "+brotli".data then .ok .brotliCompressor
    else if encoding = "+gzip".data then .ok .gzipCompressor
    else .error ⟨protocol, "unknown encoding"⟩
  else
    .error ⟨protocol, "does not start with v1.api.titan.ag"⟩

/-! ## Response handlers, observable effects, and client state (`src/client.ts`) -/

/-- `ResponseHandlerKind`: the kind of waiter registered for a request id. -/
inductive HandlerKind where
  | getInfo
  | stopStream
  | newSwapQuoteStream
  | getVenues
  | listProviders
deriving DecidableEq, Repr

/-- The value with which a waiter's promise is resolved. -/
inductive ResolvedValue where
  | serverInfo (info : ServerInfo)
  | stopStreamResponse (resp : StopStreamResponse)
  | responseWithStream (response : QuoteSwapStreamResponse) (streamId : Nat)
  | venueInfo (venues : VenueInfo)
  | providerList (providers : List ProviderInfo)
deriving DecidableEq, Repr

/-- Observable actions the client performs while handling one call or one
inbound event: settling a waiter's promise, signalling a stream's consumer
sequence (its `ReadableStreamDefaultController`), socket sends and closes,
resolving a close listener, and console diagnostics. -/
inductive Effect where
  | resolveWaiter (requestId : Nat) (value : ResolvedValue)
  | rejectWaiter (requestId : Nat) (error : ClientError)
  | streamEnqueue (streamId : Nat) (item : SwapQuotes)
  | streamErrorSignal (streamId : Nat) (error : ClientError)
  | streamCloseSignal (streamId : Nat)
  | socketSend (message : ClientRequest)
  | socketClose (code : Option Nat) (reason : Option String)
  | resolveCloseListener (listener : Nat) (event : CloseEvent)
  | diagnostic (message : String)
deriving DecidableEq, Repr

/-- The mutable fields of `V1Client`.  Stream controllers are addressed by
stream id through `Effect`s, so `quoteStreams` keeps only the registered ids.
Close listeners are identified by tokens drawn from `listenerCounter`. -/
structure ClientState where
  nextId : Nat
  results : List (Nat × HandlerKind)
  quoteStreams : List (Nat × Unit)
  streamStopping : List (Nat × Bool)
  closed : Bool
  closing : Bool
  closeEvent : Option CloseEvent
  closeListeners : List Nat
  listenerCounter : Nat
deriving DecidableEq, Repr

/-- The `V1Client` constructor's initial state. -/
def ClientState.initial : ClientState :=
  { nextId := 0
    results := []
    quoteStreams := []
    streamStopping := []
    closed := false
    closing := false
    closeEvent := none
    closeListeners := []
    listenerCounter := 0 }

/-- The outcome `listen_closed` / `close` hand back to the caller: either an
already-settled promise carrying the close event, or a pending promise
identified by its listener token. -/
inductive ListenOutcome where
  | pending (listener : Nat)
  | settled (event : CloseEvent)
deriving DecidableEq, Repr

namespace V1Client

/-- `V1Client.nextRequestId`. -/
def nextRequestId (s : ClientState) : Nat × ClientState :=
  (s.nextId, { s with nextId := s.nextId + 1 })

/-- `V1Client.listen_closed`. -/
def listen_closed (s : ClientState) : ClientState × ListenOutcome :=
  match s.closeEvent with
  | none =>
    ({ s with
        closeListeners := s.closeListeners ++ [s.listenerCounter]
        listenerCounter := s.listenerCounter + 1 },
     .pending s.listenerCounter)
  | some event => (s, .settled event)

/-- `V1Client.close`. -/
def close (s : ClientState) : ClientState × ListenOutcome × List Effect :=
  let (s1, outcome) := listen_closed s
  if !s1.closing && !s1.closed then
    ({ s1 with closing := true }, outcome, [Effect.socketClose none none])
  else
    (s1, outcome, [])

/-- `V1Client.stopStream`: allocate an id, register a `StopStream` waiter,
send the request.  (`sendMessage`'s successful encode-and-send path.) -/
def stopStream (s : ClientState) (streamId : Nat) :
    ClientState × Nat × List Effect :=
  let (requestId, s1) := nextRequestId s
  let s2 := { s1 with results := mapSet requestId HandlerKind.stopStream s1.results }
  (s2, requestId,
   [Effect.socketSend { id := requestId, data := .stopStream { id := streamId } }])

/-- `V1Client.getInfo`. -/
def getInfo (s : ClientState) : ClientState × Nat × List Effect :=
  let (requestId, s1) := nextRequestId s
  let s2 := { s1 with results := mapSet requestId HandlerKind.getInfo s1.results }
  (s2, requestId, [Effect.socketSend { id := requestId, data := .getInfo }])

/-- `V1Client.newSwapQuoteStream`. -/
def newSwapQuoteStream (s : ClientState) (params : SwapQuoteRequest) :
    ClientState × Nat × List Effect :=
  let (requestId, s1) := nextRequestId s
  let s2 :=
    { s1 with results := mapSet requestId HandlerKind.newSwapQuoteStream s1.results }
  (s2, requestId,
   [Effect.socketSend { id := requestId, data := .newSwapQuoteStream params }])

/-- `V1Client.getVenues` (`params || {}`). -/
def getVenues (s : ClientState) (params : Option GetVenuesRequest) :
    ClientState × Nat × List Effect :=
  let (requestId, s1) := nextRequestId s
  let s2 := { s1 with results := mapSet requestId HandlerKind.getVenues s1.results }
  (s2, requestId,
   [Effect.socketSend { id := requestId, data := .getVenues (params.getD ⟨none⟩) }])

/-- `V1Client.listProviders` (`params || {}`). -/
def listProviders (s : ClientState) (params : Option ListProvidersRequest) :
    ClientState × Nat × List Effect :=
  let (requestId, s1) := nextRequestId s
  let s2 := { s1 with results := mapSet requestId HandlerKind.listProviders s1.results }
  (s2, requestId,
   [Effect.socketSend { id := requestId, data := .listProviders (params.getD ⟨none⟩) }])

/-- `handler.resolveGetInfo(result)`: only the `GetInfo` handler overrides it
to resolve; every other kind inherits the base class's ProtocolError reject. -/
def resolveGetInfo (kind : HandlerKind) (requestId : Nat) (result : ServerInfo) :
    Effect :=
  match kind with
  | .getInfo => .resolveWaiter requestId (.serverInfo result)
  | _ => .rejectWaiter requestId (.protocolError "incorrect result type (ServerInfo)")

/-- `handler.resolveStopStream(result)`. -/
def resolveStopStream (kind : HandlerKind) (requestId : Nat)
    (result : StopStreamResponse) : Effect :=
  match kind with
  | .stopStream => .resolveWaiter requestId (.stopStreamResponse result)
  | _ => .rejectWaiter requestId (.protocolError "incorrect type (StopStreamResponse)")

/-- `handler.resolveNewSwapQuoteStream(result)`. -/
def resolveNewSwapQuoteStream (kind : HandlerKind) (requestId : Nat)
    (response : QuoteSwapStreamResponse) (streamId : Nat) : Effect :=
  match kind with
  | .newSwapQuoteStream => .resolveWaiter requestId (.responseWithStream response streamId)
  | _ => .rejectWaiter requestId (.protocolError "incorrect type (QuoteSwapStreamResponse)")

/-- `handler.resolveGetVenues(result)`. -/
def resolveGetVenues (kind : HandlerKind) (requestId : Nat) (result : VenueInfo) :
    Effect :=
  match kind with
  | .getVenues => .resolveWaiter requestId (.venueInfo result)
  | _ => .rejectWaiter requestId (.protocolError "incorrect type (VenueInfo)")

/-- `handler.resolveListProviders(result)`. -/
def resolveListProviders (kind : HandlerKind) (requestId : Nat)
    (result : List ProviderInfo) : Effect :=
  match kind with
  | .listProviders => .resolveWaiter requestId (.providerList result)
  | _ => .rejectWaiter requestId (.protocolError "incorrect type (ProviderInfo[])")

/-- `V1Client.handleResponseSuccess`.  On the `NewSwapQuoteStream` branch the
`ReadableStream` constructor runs `start` synchronously, registering the
controller under the server-assigned stream id before the waiter is settled. -/
def handleResponseSuccess (s : ClientState) (message : ResponseSuccess) :
    ClientState × List Effect :=
  match mapLookup message.requestId s.results with
  | none => (s, [Effect.diagnostic "Got response for unknown request ID"])
  | some kind =>
    let s1 := { s with results := mapErase message.requestId s.results }
    match message.data with
    | .getInfo info => (s1, [resolveGetInfo kind message.requestId info])
    | .newSwapQuoteStream resp =>
      match message.stream with
      | none =>
        (s1, [Effect.rejectWaiter message.requestId
          (.protocolError "No stream associated with NewSwapQuoteStream response")])
      | some streamInfo =>
        let s2 := { s1 with quoteStreams := mapSet streamInfo.id () s1.quoteStreams }
        (s2, [resolveNewSwapQuoteStream kind message.requestId resp streamInfo.id])
    | .getVenues venues => (s1, [resolveGetVenues kind message.requestId venues])
    | .listProviders providers =>
      (s1, [resolveListProviders kind message.requestId providers])
    | .streamStopped resp => (s1, [resolveStopStream kind message.requestId resp])
    | .unknownTag tag =>
      (s1, [Effect.rejectWaiter message.requestId
        (.protocolError ("unknown resonse type " ++ tag))])

/-- `V1Client.handleStreamCancel`: the `cancel` callback of the stream's
`ReadableStream`. -/
def handleStreamCancel (s : ClientState) (streamId : Nat) :
    ClientState × List Effect :=
  if (mapLookup streamId s.streamStopping).getD false || !mapHas streamId s.quoteStreams then
    (s, [])
  else
    let s1 := { s with streamStopping := mapSet streamId true s.streamStopping }
    let (s2, _, effects) := stopStream s1 streamId
    (s2, Effect.diagnostic "Requested to cancel stream" :: effects)

/-- `V1Client.handleResponseError`. -/
def handleResponseError (s : ClientState) (error : ResponseError) :
    ClientState × List Effect :=
  match mapLookup error.requestId s.results with
  | none => (s, [Effect.diagnostic "Got error response for unknown request ID"])
  | some _ =>
    ({ s with results := mapErase error.requestId s.results },
     [Effect.rejectWaiter error.requestId (.errorResponse error)])

/-- `V1Client.handleStreamData`. -/
def handleStreamData (s : ClientState) (packet : StreamData) :
    ClientState × List Effect :=
  if mapHas packet.id s.quoteStreams then
    match packet.payload.swapQuotes with
    | some quotes => (s, [Effect.streamEnqueue packet.id quotes])
    | none => (s, [Effect.diagnostic "Stream data has unknown payload type"])
  else
    (s, [Effect.diagnostic "Got stream data for unknown stream"])

/-- `V1Client.handleStreamEnd`. -/
def handleStreamEnd (s : ClientState) (packet : StreamEnd) :
    ClientState × List Effect :=
  if mapHas packet.id s.quoteStreams then
    let s1 := { s with
      quoteStreams := mapErase packet.id s.quoteStreams
      streamStopping := mapErase packet.id s.streamStopping }
    match packet.errorCode with
    | some _ =>
      (s1, [Effect.streamErrorSignal packet.id
        (.streamError (StreamErrorData.ofPacket packet))])
    | none => (s1, [Effect.streamCloseSignal packet.id])
  else
    (s, [Effect.diagnostic "Got stream end for unknown stream"])

/-- `V1Client.rejectAllWithError`. -/
def rejectAllWithError (s : ClientState) (error : ClientError) :
    ClientState × List Effect :=
  let rejections := s.results.map fun p => Effect.rejectWaiter p.1 error
  let streamFailures := s.quoteStreams.map fun p => Effect.streamErrorSignal p.1 error
  ({ s with results := [], quoteStreams := [], streamStopping := [] },
   rejections ++ streamFailures)

/-- `V1Client.handleClose`.  Faithful to the source: `_closeEvent` is never
assigned here (or anywhere), only `_closed` is set. -/
def handleClose (s : ClientState) (event : CloseEvent) : ClientState × List Effect :=
  let s1 := { s with closed := true }
  let (s2, effects) := rejectAllWithError s1 (.connectionClosed event)
  let resolutions := s2.closeListeners.map fun t => Effect.resolveCloseListener t event
  ({ s2 with closeListeners := [] }, effects ++ resolutions)

/-- `V1Client.handleError`: close the socket with code 1002, then reject all
pending work with a `ConnectionError` wrapping the cause. -/
def handleError (s : ClientState) (cause : ErrorCause) : ClientState × List Effect :=
  let (s1, effects) := rejectAllWithError s (.connectionError cause)
  (s1, Effect.socketClose (some 1002) none :: effects)

/-- The `catch` path of `V1Client.handleMessage` when `codec.decode` fails:
`handleError` with the failure, then `socket.close(1002, "failed to decode
message")`. -/
def handleDecodeFailure (s : ClientState) (failure : DecodeFailure) :
    ClientState × List Effect :=
  let (s1, effects) := handleError s (.decode failure)
  (s1, effects ++ [Effect.socketClose (some 1002) (some "failed to decode message")])

/-- `V1Client.handleServerMessage`. -/
def handleServerMessage (s : ClientState) (message : ServerMessage) :
    ClientState × List Effect :=
  match message with
  | .response r => handleResponseSuccess s r
  | .error e => handleResponseError s e
  | .streamData d => handleStreamData s d
  | .streamEnd e => handleStreamEnd s e

/-- `V1Client.handleMessage`, fed with the result of `codec.decode`. -/
def handleMessage (s : ClientState) (decoded : Except DecodeFailure ServerMessage) :
    ClientState × List Effect :=
  match decoded with
  | .ok message => handleServerMessage s message
  | .error failure => handleDecodeFailure s failure

end V1Client

/-! ## Sequencing request-method calls (for the id-allocation property) -/

/-- One public request-method call. -/
inductive RequestCall where
  | getInfo
  | stopStream (streamId : Nat)
  | newSwapQuoteStream (params : SwapQuoteRequest)
  | getVenues (params : Option GetVenuesRequest)
  | listProviders (params : Option ListProvidersRequest)
deriving DecidableEq, Repr

/-- Perform one request-method call. -/
def doRequest (s : ClientState) (call : RequestCall) : ClientState × Nat × List Effect :=
  match call with
  | .getInfo => V1Client.getInfo s
  | .stopStream streamId => V1Client.stopStream s streamId
  | .newSwapQuoteStream params => V1Client.newSwapQuoteStream s params
  | .getVenues params => V1Client.getVenues s params
  | .listProviders params => V1Client.listProviders s params

/-- Perform a sequence of request-method calls, collecting the request ids
assigned to the outgoing messages in call order. -/
def runRequests (s : ClientState) : List RequestCall → ClientState × List Nat
  | [] => (s, [])
  | call :: rest =>
    let step := doRequest s call
    let tail := runRequests step.1 rest
    (tail.1, step.2.1 :: tail.2)

/-! ## Small facts about the JavaScript truthiness defaults -/

theorem truthyNum_some (c : Nat) : truthyNum (some c) = c := by
  unfold truthyNum
  by_cases h : c = 0 <;> simp [h]

theorem truthyStr_some (m : String) : truthyStr (some m) = m := by
  unfold truthyStr
  by_cases h : m = "" <;> simp [h]

/-! ## Claim theorems -/

/-- Claim C5: decoding an input whose decompressed bytes deserialize to
`null`, to a non-object scalar (boolean, number, bigint, string), or to an
array fails with a `DecodeError` (an explicit rejection of that error type,
never a crash or an unrelated error), and an input deserializing to a keyed
object returns the decoded envelope. -/
theorem c5_decode_validation (fields : List (String × MsgValue)) :
    decodeValidate (.objValue fields) = .ok (.objValue fields) ∧
    decodeValidate .nullValue = .error ⟨"decoded value was null"⟩ ∧
    (∀ b, decodeValidate (.boolValue b) =
      .error ⟨"value decoded to boolean, expected object"⟩) ∧
    (∀ n, decodeValidate (.numValue n) =
      .error ⟨"value decoded to number, expected object"⟩) ∧
    (∀ n, decodeValidate (.bigintValue n) =
      .error ⟨"value decoded to bigint, expected object"⟩) ∧
    (∀ str, decodeValidate (.strValue str) =
      .error ⟨"value decoded to string, expected object"⟩) ∧
    (∀ elems, decodeValidate (.arrValue elems) =
      .error ⟨"got array, expected object"⟩) :=
  ⟨rfl, rfl, fun _ => rfl, fun _ => rfl, fun _ => rfl, fun _ => rfl, fun _ => rfl⟩

/-- Claim C6: codec negotiation from a subprotocol string succeeds exactly
when the string is the fixed base token `v1.api.titan.ag` optionally followed
by one of the three supported compression suffixes `+zstd`, `+brotli`,
`+gzip`; every other string fails with `InvalidProtocol`. -/
theorem c6_negotiation_exact_protocols (protocol : List Char) :
    (from_protocol protocol).isOk = true ↔
      protocol = WEBSOCKET_SUBPROTO_BASE ∨
      protocol = WEBSOCKET_SUBPROTO_BASE ++ "+zstd".data ∨
      protocol = WEBSOCKET_SUBPROTO_BASE ++ "+brotli".data ∨
      protocol = WEBSOCKET_SUBPROTO_BASE ++ "+gzip".data := by
  unfold from_protocol
  by_cases hp : WEBSOCKET_SUBPROTO_BASE.isPrefixOf protocol
  · obtain ⟨t, rfl⟩ := List.isPrefixOf_iff_prefix.mp hp
    rw [if_pos hp]
    simp only [List.drop_left]
    constructor
    · intro h
      by_cases h1 : t = []
      · left; simp [h1]
      · by_cases h2 : t = "+zstd".data
        · right; left; simp [h2]
        · by_cases h3 : t = "+brotli".data
          · right; right; left; simp [h3]
          · by_cases h4 : t = "+gzip".data
            · right; right; right; simp [h4]
            · simp [h1, h2, h3, h4, Except.isOk, Except.toBool] at h
    · intro h
      rcases h with h | h | h | h <;>
        [ (have ht : t = [] := by simpa using h);
          (have ht : t = "+zstd".data := by simpa using h);
          (have ht : t = "+brotli".data := by simpa using h);
          (have ht : t = "+gzip".data := by simpa using h) ] <;>
        simp [ht, Except.isOk, Except.toBool]
  · rw [if_neg hp]
    simp only [Except.isOk]
    constructor
    · intro h; simp [Except.toBool] at h
    · intro h
      exfalso
      apply hp
      rcases h with h | h | h | h
      · rw [h]; exact List.isPrefixOf_iff_prefix.mpr ⟨[], by simp⟩
      · rw [h]; exact List.isPrefixOf_iff_prefix.mpr ⟨_, rfl⟩
      · rw [h]; exact List.isPrefixOf_iff_prefix.mpr ⟨_, rfl⟩
      · rw [h]; exact List.isPrefixOf_iff_prefix.mpr ⟨_, rfl⟩

/-- Claim C9: a `StreamData` envelope whose stream id has no registered
handle is dropped with only a diagnostic: the state — every other registered
stream and every pending request — is unchanged, and no waiter is settled. -/
theorem c9_stream_data_unknown_id_dropped (s : ClientState) (packet : StreamData)
    (h : mapHas packet.id s.quoteStreams = false) :
    V1Client.handleStreamData s packet =
      (s, [Effect.diagnostic "Got stream data for unknown stream"]) := by
  unfold V1Client.handleStreamData
  simp [h]

/-- Witness for C9: stream id 7 is unregistered in the fresh client. -/
theorem c9_witness :
    mapHas 7 ClientState.initial.quoteStreams = false ∧
    V1Client.handleStreamData ClientState.initial ⟨7, 0, ⟨some ⟨1⟩⟩⟩ =
      (ClientState.initial, [Effect.diagnostic "Got stream data for unknown stream"]) :=
  ⟨by decide,
   c9_stream_data_unknown_id_dropped ClientState.initial ⟨7, 0, ⟨some ⟨1⟩⟩⟩ (by decide)⟩

/-- Claim C10: a `StreamData` envelope for a registered stream whose payload
lacks the `SwapQuotes` variant is dropped with only a diagnostic — nothing is
enqueued, no error is raised, the stream stays registered — and a subsequent
well-formed `StreamData` for the same id is still delivered. -/
theorem c10_unknown_payload_dropped_stream_stays (s : ClientState)
    (packet : StreamData)
    (hreg : mapHas packet.id s.quoteStreams = true)
    (hpayload : packet.payload.swapQuotes = none) :
    V1Client.handleStreamData s packet =
      (s, [Effect.diagnostic "Stream data has unknown payload type"]) ∧
    ∀ (seqNum : Nat) (quotes : SwapQuotes),
      V1Client.handleStreamData s { id := packet.id, seq := seqNum, payload := ⟨some quotes⟩ } =
        (s, [Effect.streamEnqueue packet.id quotes]) := by
  constructor
  · unfold V1Client.handleStreamData
    simp [hreg, hpayload]
  · intro seqNum quotes
    unfold V1Client.handleStreamData
    simp [hreg]

/-- Witness for C10: stream id 5 is registered, payload lacks `SwapQuotes`. -/
theorem c10_witness :
    mapHas 5 [(5, ())] = true ∧
    (⟨5, 0, ⟨none⟩⟩ : StreamData).payload.swapQuotes = none ∧
    V1Client.handleStreamData { ClientState.initial with quoteStreams := [(5, ())] }
        ⟨5, 0, ⟨none⟩⟩ =
      ({ ClientState.initial with quoteStreams := [(5, ())] },
       [Effect.diagnostic "Stream data has unknown payload type"]) :=
  ⟨by decide, rfl,
   (c10_unknown_payload_dropped_stream_stays
     { ClientState.initial with quoteStreams := [(5, ())] }
     ⟨5, 0, ⟨none⟩⟩ (by decide) rfl).1⟩

/-- Claim C7: on `StreamEnd` for a registered stream the client removes the
stream's producer and stop-flag and terminates the consumer sequence — with a
`StreamError` carrying the packet's streamId, errorCode and errorMessage when
an error code is present, and as a normal graceful end otherwise; a
`StreamEnd` for an unregistered id changes nothing beyond a diagnostic. -/
theorem c7_stream_end_terminates_sequence (s : ClientState) (packet : StreamEnd) :
    (mapHas packet.id s.quoteStreams = true →
      (V1Client.handleStreamEnd s packet).1 =
        { s with quoteStreams := mapErase packet.id s.quoteStreams
                 streamStopping := mapErase packet.id s.streamStopping } ∧
      (∀ c, packet.errorCode = some c →
        (V1Client.handleStreamEnd s packet).2 =
          [Effect.streamErrorSignal packet.id (.streamError
            { streamId := packet.id, errorCode := c
              errorMessage := truthyStr packet.errorMessage })]) ∧
      (∀ c m, packet.errorCode = some c → packet.errorMessage = some m →
        (V1Client.handleStreamEnd s packet).2 =
          [Effect.streamErrorSignal packet.id (.streamError ⟨packet.id, c, m⟩)]) ∧
      (packet.errorCode = none →
        (V1Client.handleStreamEnd s packet).2 = [Effect.streamCloseSignal packet.id])) ∧
    (mapHas packet.id s.quoteStreams = false →
      V1Client.handleStreamEnd s packet =
        (s, [Effect.diagnostic "Got stream end for unknown stream"])) := by
  constructor
  · intro hreg
    have hres : V1Client.handleStreamEnd s packet =
        ({ s with quoteStreams := mapErase packet.id s.quoteStreams
                  streamStopping := mapErase packet.id s.streamStopping },
         match packet.errorCode with
         | some _ => [Effect.streamErrorSignal packet.id
             (.streamError (StreamErrorData.ofPacket packet))]
         | none => [Effect.streamCloseSignal packet.id]) := by
      unfold V1Client.handleStreamEnd
      cases packet.errorCode <;> simp [hreg]
    refine ⟨by rw [hres], ?_, ?_, ?_⟩
    · intro c hc
      rw [hres]
      simp [hc, StreamErrorData.ofPacket, truthyNum_some]
    · intro c m hc hm
      rw [hres]
      simp [hc, hm, StreamErrorData.ofPacket, truthyNum_some, truthyStr_some]
    · intro hc
      rw [hres]
      simp [hc]
  · intro hmiss
    unfold V1Client.handleStreamEnd
    simp [hmiss]

/-- Witness for C7: stream 7 is registered; `StreamEnd{errorCode: 9,
errorMessage: "bad"}` terminates it with `StreamError ⟨7, 9, "bad"⟩`. -/
theorem c7_witness :
    mapHas 7 [(7, ())] = true ∧
    (V1Client.handleStreamEnd { ClientState.initial with quoteStreams := [(7, ())] }
        ⟨7, some 9, some "bad"⟩).2 =
      [Effect.streamErrorSignal 7 (.streamError ⟨7, 9, "bad"⟩)] :=
  ⟨by decide,
   (((c7_stream_end_terminates_sequence
       { ClientState.initial with quoteStreams := [(7, ())] }
       ⟨7, some 9, some "bad"⟩).1 (by decide)).2.2.1 9 "bad" rfl rfl)⟩

/-- Count the `StopStream` requests sent in a list of effects. -/
def countStopStreamSends (effects : List Effect) : Nat :=
  effects.countP fun e =>
    match e with
    | .socketSend { data := RequestData.stopStream _, .. } => true
    | _ => false

/-- Iterate `handleStreamCancel` `n` times, concatenating effects. -/
def cancelRepeat (s : ClientState) (streamId : Nat) : Nat → ClientState × List Effect
  | 0 => (s, [])
  | n + 1 =>
    let step := V1Client.handleStreamCancel s streamId
    let rest := cancelRepeat step.1 streamId n
    (rest.1, step.2 ++ rest.2)

theorem handleStreamCancel_flagged (s : ClientState) (streamId : Nat)
    (h : (mapLookup streamId s.streamStopping).getD false = true) :
    V1Client.handleStreamCancel s streamId = (s, []) := by
  unfold V1Client.handleStreamCancel
  simp [h]

theorem handleStreamCancel_gone (s : ClientState) (streamId : Nat)
    (h : mapHas streamId s.quoteStreams = false) :
    V1Client.handleStreamCancel s streamId = (s, []) := by
  unfold V1Client.handleStreamCancel
  simp [h]

theorem cancelRepeat_flagged (streamId : Nat) (n : Nat) (s : ClientState)
    (h : (mapLookup streamId s.streamStopping).getD false = true) :
    cancelRepeat s streamId n = (s, []) := by
  induction n with
  | zero => rfl
  | succ m ih =>
    unfold cancelRepeat
    simp [handleStreamCancel_flagged s streamId h, ih]

theorem handleStreamCancel_first (s : ClientState) (streamId : Nat)
    (hreg : mapHas streamId s.quoteStreams = true)
    (hflag : (mapLookup streamId s.streamStopping).getD false = false) :
    V1Client.handleStreamCancel s streamId =
      ({ s with streamStopping := mapSet streamId true s.streamStopping
                nextId := s.nextId + 1
                results := mapSet s.nextId HandlerKind.stopStream s.results },
       [Effect.diagnostic "Requested to cancel stream",
        Effect.socketSend { id := s.nextId, data := .stopStream { id := streamId } }]) := by
  unfold V1Client.handleStreamCancel V1Client.stopStream V1Client.nextRequestId
  simp [hreg, hflag]

/-- Claim C8: cancellation of an open quote stream sends at most one
`StopStream` request: iterating `cancel` any positive number of times from a
registered, not-yet-stopping stream sends exactly one, and any single cancel
while the stop-flag is set, or after the stream has ended, sends nothing and
completes immediately. -/
theorem c8_cancel_sends_at_most_one_stop (s : ClientState) (streamId : Nat)
    (hreg : mapHas streamId s.quoteStreams = true)
    (hflag : (mapLookup streamId s.streamStopping).getD false = false) :
    (∀ n, 1 ≤ n → countStopStreamSends (cancelRepeat s streamId n).2 = 1) ∧
    (∀ s2, (mapLookup streamId s2.streamStopping).getD false = true →
      V1Client.handleStreamCancel s2 streamId = (s2, [])) ∧
    (∀ s2, mapHas streamId s2.quoteStreams = false →
      V1Client.handleStreamCancel s2 streamId = (s2, [])) := by
  refine ⟨?_, fun s2 h => handleStreamCancel_flagged s2 streamId h,
          fun s2 h => handleStreamCancel_gone s2 streamId h⟩
  intro n hn
  obtain ⟨m, rfl⟩ : ∃ m, n = m + 1 := ⟨n - 1, by omega⟩
  have hflag' : (mapLookup streamId
      (mapSet streamId true s.streamStopping)).getD false = true := by
    rw [mapLookup_mapSet_self]; rfl
  have h1 := handleStreamCancel_first s streamId hreg hflag
  have h2 := cancelRepeat_flagged streamId m
      { s with streamStopping := mapSet streamId true s.streamStopping
               nextId := s.nextId + 1
               results := mapSet s.nextId HandlerKind.stopStream s.results }
      (by simpa using hflag')
  simp only [cancelRepeat, h1, h2]
  simp [countStopStreamSends, List.countP, List.countP.go]

/-- Witness for C8: two cancels of registered stream 3 send exactly one
`StopStream`. -/
theorem c8_witness :
    mapHas 3 [(3, ())] = true ∧
    countStopStreamSends
      (cancelRepeat { ClientState.initial with quoteStreams := [(3, ())] } 3 2).2 = 1 :=
  ⟨by decide,
   (c8_cancel_sends_at_most_one_stop
     { ClientState.initial with quoteStreams := [(3, ())] } 3
     (by decide) (by decide)).1 2 (by decide)⟩

theorem doRequest_id (s : ClientState) (call : RequestCall) :
    (doRequest s call).2.1 = s.nextId := by
  cases call <;> rfl

theorem doRequest_nextId (s : ClientState) (call : RequestCall) :
    (doRequest s call).1.nextId = s.nextId + 1 := by
  cases call <;> rfl

theorem runRequests_ids (calls : List RequestCall) : ∀ (s : ClientState),
    (runRequests s calls).2 = (List.range calls.length).map (· + s.nextId) ∧
    (runRequests s calls).1.nextId = s.nextId + calls.length := by
  induction calls with
  | nil => intro s; simp [runRequests]
  | cons c rest ih =>
    intro s
    simp only [runRequests, List.length_cons]
    constructor
    · rw [doRequest_id, (ih _).1, doRequest_nextId, List.range_succ_eq_map]
      simp only [List.map_cons, Nat.zero_add, List.map_map, List.cons.injEq, true_and]
      apply List.map_congr_left
      intro a _
      simp only [Function.comp_apply, Nat.succ_eq_add_one]
      omega
    · rw [(ih _).2, doRequest_nextId]
      omega

/-- Claim C2: for every sequence of N request-method calls on one client the
assigned request ids are exactly 0, 1, ..., N-1 in call order; from any
intermediate state the ids continue strictly increasing by one from the
current counter, so no id is ever reused. -/
theorem c2_request_ids_sequential (calls : List RequestCall) :
    (runRequests ClientState.initial calls).2 = List.range calls.length ∧
    ∀ (s : ClientState),
      (runRequests s calls).2 = (List.range calls.length).map (· + s.nextId) ∧
      (runRequests s calls).1.nextId = s.nextId + calls.length := by
  refine ⟨?_, fun s => runRequests_ids calls s⟩
  have h := (runRequests_ids calls ClientState.initial).1
  simpa [ClientState.initial] using h

/-- Two `getInfo` calls on a fresh client, then the success responses arrive
for the second request first: the effect trace of the two response events. -/
def twoGetInfoOutOfOrder (a b : ServerInfo) : List Effect :=
  let call0 := V1Client.getInfo ClientState.initial
  let call1 := V1Client.getInfo call0.1
  let resp1 := V1Client.handleResponseSuccess call1.1
    { requestId := call1.2.1, data := .getInfo b, stream := none }
  let resp0 := V1Client.handleResponseSuccess resp1.1
    { requestId := call0.2.1, data := .getInfo a, stream := none }
  resp1.2 ++ resp0.2

/-- Claim C1: an inbound success envelope resolves exactly the waiter whose
request id equals the envelope's `requestId` — that waiter alone is settled
and removed while every other pending waiter is untouched — independent of
arrival order; in particular with get-info requests 0 and 1 pending and
responses arriving for id 1 then id 0, both resolve with their own payload. -/
theorem c1_response_resolves_matching_waiter (s : ClientState) (requestId : Nat)
    (info : ServerInfo) (stream : Option StreamStart)
    (h : mapLookup requestId s.results = some HandlerKind.getInfo) :
    V1Client.handleResponseSuccess s
        { requestId := requestId, data := .getInfo info, stream := stream } =
      ({ s with results := mapErase requestId s.results },
       [Effect.resolveWaiter requestId (.serverInfo info)]) ∧
    (∀ j, j ≠ requestId →
      mapLookup j (mapErase requestId s.results) = mapLookup j s.results) ∧
    ∀ (a b : ServerInfo), twoGetInfoOutOfOrder a b =
      [Effect.resolveWaiter 1 (.serverInfo b), Effect.resolveWaiter 0 (.serverInfo a)] := by
  refine ⟨?_, ?_, ?_⟩
  · unfold V1Client.handleResponseSuccess
    simp [h, V1Client.resolveGetInfo]
  · intro j hj
    rw [mapLookup_mapErase, if_neg hj]
  · intro a b
    rfl

/-- Witness for C1: request id 4 is pending as a get-info waiter. -/
theorem c1_witness :
    mapLookup 4 [(4, HandlerKind.getInfo)] = some HandlerKind.getInfo ∧
    V1Client.handleResponseSuccess
        { ClientState.initial with results := [(4, HandlerKind.getInfo)] }
        { requestId := 4, data := .getInfo ⟨11⟩, stream := none } =
      ({ ClientState.initial with results := mapErase 4 [(4, HandlerKind.getInfo)] },
       [Effect.resolveWaiter 4 (.serverInfo ⟨11⟩)]) :=
  ⟨by decide,
   (c1_response_resolves_matching_waiter
     { ClientState.initial with results := [(4, HandlerKind.getInfo)] }
     4 ⟨11⟩ none (by decide)).1⟩

/-- Claim C3: a decode failure on any inbound binary message closes the
transport with the protocol-error close code 1002 and rejects every waiter
pending at that moment with a `ConnectionError` wrapping the decode failure;
the pending map is emptied, so no waiter is left unsettled. -/
theorem c3_decode_failure_closes_and_rejects_all (s : ClientState)
    (failure : DecodeFailure) :
    (V1Client.handleDecodeFailure s failure).1.results = [] ∧
    (∀ requestId, (mapLookup requestId s.results).isSome = true →
      Effect.rejectWaiter requestId (.connectionError (.decode failure)) ∈
        (V1Client.handleDecodeFailure s failure).2) ∧
    Effect.socketClose (some 1002) none ∈ (V1Client.handleDecodeFailure s failure).2 ∧
    Effect.socketClose (some 1002) (some "failed to decode message") ∈
      (V1Client.handleDecodeFailure s failure).2 := by
  have hres : V1Client.handleDecodeFailure s failure =
      ({ s with results := [], quoteStreams := [], streamStopping := [] },
       (Effect.socketClose (some 1002) none ::
         (s.results.map
            (fun p => Effect.rejectWaiter p.1 (.connectionError (.decode failure))) ++
          s.quoteStreams.map
            (fun p => Effect.streamErrorSignal p.1 (.connectionError (.decode failure))))) ++
       [Effect.socketClose (some 1002) (some "failed to decode message")]) := by
    unfold V1Client.handleDecodeFailure V1Client.handleError V1Client.rejectAllWithError
    rfl
  rw [hres]
  refine ⟨rfl, ?_, ?_, ?_⟩
  · intro requestId hid
    obtain ⟨kind, hmem⟩ := mapLookup_isSome_exists requestId s.results hid
    apply List.mem_append_left
    apply List.mem_cons_of_mem
    apply List.mem_append_left
    exact List.mem_map_of_mem _ hmem
  · exact List.mem_append_left _ (List.mem_cons_self _ _)
  · exact List.mem_append_right _ (List.mem_singleton_self _)

/-- Witness for C3: request id 0 is pending when the decode failure hits. -/
theorem c3_witness :
    (mapLookup 0 [(0, HandlerKind.getInfo)]).isSome = true ∧
    Effect.rejectWaiter 0 (.connectionError (.decode ⟨"bad bytes"⟩)) ∈
      (V1Client.handleDecodeFailure
        { ClientState.initial with results := [(0, HandlerKind.getInfo)] }
        ⟨"bad bytes"⟩).2 :=
  ⟨by decide,
   (c3_decode_failure_closes_and_rejects_all
     { ClientState.initial with results := [(0, HandlerKind.getInfo)] }
     ⟨"bad bytes"⟩).2.1 0 (by decide)⟩

/-- The state and effects after `close()` on a fresh client followed by the
socket's close event firing. -/
def afterCloseEvent : ClientState × List Effect :=
  V1Client.handleClose (V1Client.close ClientState.initial).1 ⟨1000, "normal", true⟩

/-- Claim C4, evaluated on the code: the first `close()` initiates the
transport close and its listener is resolved with the close event; but
because `handleClose` never assigns `_closeEvent`, a `close()` made after
the client is closed returns a freshly registered pending listener — which
no later event resolves, since the listener list was already drained —
instead of the settled closure outcome the claim (and the method's own doc
comment) promise.  The guard part of the claim does hold: the second call
initiates no new transport close. -/
theorem c4_close_after_closed_never_settles :
    afterCloseEvent.2 = [Effect.resolveCloseListener 0 ⟨1000, "normal", true⟩] ∧
    afterCloseEvent.1.closed = true ∧
    afterCloseEvent.1.closeEvent = none ∧
    afterCloseEvent.1.closeListeners = [] ∧
    (V1Client.close afterCloseEvent.1).2.2 = [] ∧
    (V1Client.close afterCloseEvent.1).2.1 = ListenOutcome.pending 1 ∧
    (V1Client.close afterCloseEvent.1).1.closeListeners = [1] :=
  ⟨rfl, rfl, rfl, rfl, rfl, rfl, rfl⟩

end Titan
